import Mathlib

/-!
Verification of the stockapi virtual-trading service.

The development shallowly embeds the two persistent stores of the service
and the operations the specification talks about:

* the per-user ledger (`user_wallets`, `portfolio_holdings`,
  `stock_transactions`, `wallet_transactions`) together with the trading
  operations `updateWalletBalance`, `buyStock` and `sellStock` of the
  `UserStockDatabase` class that `userUtils.js` is wired to (the
  `runTransaction`-based implementation; it is the only variant exposing
  the watchlist methods `userUtils.js` calls);
* the market-data cache (`quotes`, `historical_data`, `cache_metadata`,
  `search_cache`) of the `StockDatabase` class together with the fetchers
  `getSimpleStockData`, `getHistoricalData` and `searchStocks` of
  `stockUtils.js`.

Modelling conventions: money, prices and share quantities are rationals
(JavaScript numbers with exact arithmetic); timestamps are integers in
seconds; the state is the slice of the database belonging to one user
(every SQL statement of the embedded operations filters on `user_id`).
SQLite transactions (`BEGIN`/`COMMIT`/`ROLLBACK`) are embedded by
`runTransaction`: a failing operation discards the pending updates and
leaves the state as it was.  Network endpoints are an environment
mapping each URL to the parseable payload it returns, if any.
-/

namespace StockApi

/-- A `user_wallets` row (one per user). -/
structure Wallet where
  balance : ℚ
  total_invested : ℚ
  total_current_value : ℚ
  total_profit_loss : ℚ
deriving Repr, DecidableEq

/-- A `portfolio_holdings` row; `(user_id, symbol)` is unique, so within one
user the `symbol` field is a key. -/
structure Holding where
  symbol : String
  company_name : String
  quantity : ℚ
  average_price : ℚ
  invested_amount : ℚ
deriving Repr, DecidableEq

/-- A `stock_transactions` row (append-only BUY/SELL log). -/
structure StockTransaction where
  symbol : String
  company_name : String
  transaction_type : String
  quantity : ℚ
  price : ℚ
  total_amount : ℚ
deriving Repr, DecidableEq

/-- A `wallet_transactions` row (append-only money movement log). -/
structure WalletTransaction where
  transaction_type : String
  amount : ℚ
  balance_after : ℚ
  description : String
deriving Repr, DecidableEq

/-- The ledger rows belonging to one user.  `getWalletBalance` creates the
wallet with zero balances on first access, so the wallet row always exists. -/
structure LedgerState where
  wallet : Wallet
  holdings : List Holding
  stock_transactions : List StockTransaction
  wallet_transactions : List WalletTransaction
deriving Repr, DecidableEq

/-- One SQL statement inside a transaction: it either updates the state or
fails (`none`). -/
abbrev Op := LedgerState → Option LedgerState

/-- Runs the statements of a transaction in order; `none` as soon as one
fails. -/
def applyOps : LedgerState → List Op → Option LedgerState
  | s, [] => some s
  | s, op :: rest =>
    match op s with
    | some s' => applyOps s' rest
    | none => none

/-- `UserStockDatabase.runTransaction`: `BEGIN`, the statements in order,
`COMMIT`; on any failure `ROLLBACK` leaves the database unchanged and the
caller receives the error. -/
def runTransaction (s : LedgerState) (ops : List Op) : LedgerState × Option String :=
  match applyOps s ops with
  | some s' => (s', none)
  | none => (s, some ("Transaction failed"))

/-- `UserStockDatabase.updateWalletBalance`: DEPOSIT and STOCK_SALE add the
amount, WITHDRAWAL and STOCK_PURCHASE subtract it and are rejected if the
result would be negative; on success the wallet row is updated and one
`wallet_transactions` row recording the resulting balance is appended,
atomically.  Returns the final state (unchanged on error) and the outcome. -/
def updateWalletBalance (s : LedgerState) (amount : ℚ) (transactionType : String)
    (description : String) : LedgerState × Except String ℚ :=
  let currentBalance := s.wallet.balance
  if transactionType == "DEPOSIT" || transactionType == "STOCK_SALE" then
    let newBalance := currentBalance + amount
    ({ s with
        wallet := { s.wallet with balance := newBalance },
        wallet_transactions := s.wallet_transactions ++
          [{ transaction_type := transactionType, amount := amount,
             balance_after := newBalance, description := description }] },
      .ok newBalance)
  else if transactionType == "WITHDRAWAL" || transactionType == "STOCK_PURCHASE" then
    let newBalance := currentBalance - amount
    if newBalance < 0 then
      (s, .error ("Insufficient balance"))
    else
      ({ s with
          wallet := { s.wallet with balance := newBalance },
          wallet_transactions := s.wallet_transactions ++
            [{ transaction_type := transactionType, amount := amount,
               balance_after := newBalance, description := description }] },
        .ok newBalance)
  else
    (s, .error ("Invalid transaction type"))

/-- One call of `updateWalletBalance` as seen by the database: on error the
rows are untouched. -/
structure BalanceAdjustment where
  amount : ℚ
  transactionType : String
  description : String

/-- Applies one balance adjustment, keeping the previous state when the
operation is rejected. -/
def applyAdjustment (s : LedgerState) (a : BalanceAdjustment) : LedgerState :=
  (updateWalletBalance s a.amount a.transactionType a.description).1

/-- `UserStockDatabase.buyStock`: balance check, then one transaction holding
the wallet debit, the `wallet_transactions` insert (whose `balance_after`
subquery reads the already-debited balance), the `stock_transactions` insert
and the holding upsert.  The two insert/upsert steps carry failure-injection
flags so that mid-transaction faults can be stated. -/
def buyStock (s : LedgerState) (symbol companyName : String) (quantity price : ℚ)
    (stockTxFails holdingFails : Bool) : LedgerState × Option String :=
  let totalAmount := quantity * price
  if s.wallet.balance < totalAmount then
    (s, some ("Insufficient wallet balance"))
  else
    let existingHolding := s.holdings.find? (fun h => h.symbol == symbol)
    let debitOp : Op := fun st =>
      some { st with wallet := { st.wallet with balance := st.wallet.balance - totalAmount } }
    let walletTxOp : Op := fun st =>
      some { st with wallet_transactions := st.wallet_transactions ++
        [{ transaction_type := "STOCK_PURCHASE", amount := totalAmount,
           balance_after := st.wallet.balance,
           description := "Purchased " ++ toString quantity ++ " shares of " ++ symbol }] }
    let stockTxOp : Op := fun st =>
      if stockTxFails then none else
      some { st with stock_transactions := st.stock_transactions ++
        [{ symbol := symbol, company_name := companyName, transaction_type := "BUY",
           quantity := quantity, price := price, total_amount := totalAmount }] }
    let holdingOp : Op :=
      match existingHolding with
      | some holding =>
        let newQuantity := holding.quantity + quantity
        let newInvestedAmount := holding.invested_amount + totalAmount
        let newAveragePrice := newInvestedAmount / newQuantity
        fun st =>
          if holdingFails then none else
          some { st with holdings := st.holdings.map (fun h =>
            if h.symbol == symbol then
              { h with quantity := newQuantity, average_price := newAveragePrice,
                       invested_amount := newInvestedAmount }
            else h) }
      | none =>
        fun st =>
          if holdingFails then none else
          some { st with holdings := st.holdings ++
            [{ symbol := symbol, company_name := companyName, quantity := quantity,
               average_price := price, invested_amount := totalAmount }] }
    runTransaction s [debitOp, walletTxOp, stockTxOp, holdingOp]

/-- `UserStockDatabase.sellStock` (the implementation `userUtils.js` is wired
to): share check, then one transaction holding the `stock_transactions`
insert and the holding update (full sale deletes the row, partial sale
reduces `quantity` and proportionally reduces `invested_amount`).  No
statement of this transaction touches the wallet. -/
def sellStock (s : LedgerState) (symbol : String) (quantity price : ℚ) :
    LedgerState × Option String :=
  let totalAmount := quantity * price
  match s.holdings.find? (fun h => h.symbol == symbol) with
  | none => (s, some ("Insufficient shares to sell"))
  | some holding =>
    if holding.quantity < quantity then
      (s, some ("Insufficient shares to sell"))
    else
      let newQuantity := holding.quantity - quantity
      let stockTxOp : Op := fun st =>
        some { st with stock_transactions := st.stock_transactions ++
          [{ symbol := symbol, company_name := holding.company_name,
             transaction_type := "SELL", quantity := quantity, price := price,
             total_amount := totalAmount }] }
      let holdingOp : Op :=
        if newQuantity = 0 then
          fun st => some { st with holdings := st.holdings.filter (fun h => !(h.symbol == symbol)) }
        else
          let newInvestedAmount := (newQuantity / holding.quantity) * holding.invested_amount
          fun st => some { st with holdings := st.holdings.map (fun h =>
            if h.symbol == symbol then
              { h with quantity := newQuantity, invested_amount := newInvestedAmount }
            else h) }
      runTransaction s [stockTxOp, holdingOp]

/-- A fresh ledger with the given balance: the wallet `getWalletBalance`
creates (all aggregates zero) after one deposit, with empty logs kept
abstractly empty for the demonstration states. -/
def demoLedger (balance : ℚ) : LedgerState :=
  { wallet := { balance := balance, total_invested := 0, total_current_value := 0,
                total_profit_loss := 0 },
    holdings := [], stock_transactions := [], wallet_transactions := [] }

/-- The state of the specification's sell scenario: balance 65000 after the
scenario buy, holding 10 TCS shares bought at 3500 (invested 35000). -/
def scenarioSellStart : LedgerState :=
  { wallet := { balance := 65000, total_invested := 0, total_current_value := 0,
                total_profit_loss := 0 },
    holdings := [{ symbol := "TCS", company_name := "TCS", quantity := 10,
                   average_price := 3500, invested_amount := 35000 }],
    stock_transactions := [], wallet_transactions := [] }

/-- A `quotes` row of the stock cache database. -/
structure QuoteRow where
  symbol : String
  current_price : ℚ
  previous_close : ℚ
  day_high : ℚ
  day_low : ℚ
  volume : ℤ
  last_updated : ℤ
deriving Repr, DecidableEq

/-- `ORDER BY last_updated DESC LIMIT 1`: the row with the greatest
`last_updated` among the given rows. -/
def latestBy : List QuoteRow → Option QuoteRow
  | [] => none
  | r :: rest =>
    match latestBy rest with
    | none => some r
    | some b => if r.last_updated < b.last_updated then some b else some r

/-- `StockDatabase.getCachedQuote`: the most recent `quotes` row for the
symbol whose `last_updated` is strictly newer than `now` minus
`maxAgeMinutes` minutes; reads only, never fetches. -/
def getCachedQuote (quotes : List QuoteRow) (symbol : String)
    (maxAgeMinutes now : ℤ) : Option QuoteRow :=
  latestBy (quotes.filter (fun r =>
    r.symbol == symbol && decide (now - maxAgeMinutes * 60 < r.last_updated)))

/-- The `chart.result[0].meta` object of a parseable upstream quote payload. -/
structure ChartMeta where
  symbol : String
  regularMarketPrice : ℚ
  previousClose : ℚ
  regularMarketDayHigh : ℚ
  regularMarketDayLow : ℚ
  regularMarketVolume : ℤ
  currency : String
  exchangeName : String
deriving Repr, DecidableEq

/-- The record `getSimpleStockData` returns to its caller. -/
structure StockData where
  symbol : String
  currentPrice : ℚ
  previousClose : ℚ
  dayHigh : ℚ
  dayLow : ℚ
  volume : ℤ
  currency : String
  exchangeName : String
  source : String
  cached : Bool
deriving Repr, DecidableEq

/-- First upstream endpoint tried by `getSimpleStockData`. -/
def primaryEndpoint (symbol : String) : String :=
  "https://query1.finance.yahoo.com/v8/finance/chart/" ++ symbol ++ ".NS"

/-- Second upstream endpoint tried by `getSimpleStockData`. -/
def secondaryEndpoint (symbol : String) : String :=
  "https://query2.finance.yahoo.com/v8/finance/chart/" ++ symbol ++ ".NS"

/-- Last-resort endpoint tried by `getSimpleStockData` (the HTML quote
page). -/
def quotePageEndpoint (symbol : String) : String :=
  "https://finance.yahoo.com/quote/" ++ symbol ++ ".NS"

/-- The fixed endpoint list of `getSimpleStockData`, in priority order. -/
def endpoints (symbol : String) : List String :=
  [primaryEndpoint symbol, secondaryEndpoint symbol, quotePageEndpoint symbol]

/-- The for-loop of `getSimpleStockData`: try each URL in order against the
environment `responses` (which maps a URL to the parseable
`chart.result[0]` it yields, if any — a request failure and an unparseable
body both continue the loop); the first parseable payload wins. -/
def fetchFromEndpoints (responses : String → Option ChartMeta) :
    List String → Option ChartMeta
  | [] => none
  | url :: rest =>
    match responses url with
    | some meta => some meta
    | none => fetchFromEndpoints responses rest

/-- The stock record built from a fresh upstream payload. -/
def metaToStockData (meta : ChartMeta) : StockData :=
  { symbol := meta.symbol, currentPrice := meta.regularMarketPrice,
    previousClose := meta.previousClose, dayHigh := meta.regularMarketDayHigh,
    dayLow := meta.regularMarketDayLow, volume := meta.regularMarketVolume,
    currency := meta.currency, exchangeName := meta.exchangeName,
    source := "Yahoo Finance Chart API", cached := false }

/-- The stock record built from a cached `quotes` row (hard-coded INR/NSI). -/
def cachedToStockData (c : QuoteRow) : StockData :=
  { symbol := c.symbol, currentPrice := c.current_price,
    previousClose := c.previous_close, dayHigh := c.day_high,
    dayLow := c.day_low, volume := c.volume, currency := "INR",
    exchangeName := "NSI", source := "Database Cache", cached := true }

/-- `StockDatabase.cacheQuote`: the `quotes` table has no unique constraint
on `symbol` (its primary key is the autoincrement `id`), so the
`INSERT OR REPLACE` simply appends a row stamped `now`. -/
def cacheQuote (quotes : List QuoteRow) (symbol : String) (d : StockData)
    (now : ℤ) : List QuoteRow :=
  quotes ++ [{ symbol := symbol, current_price := d.currentPrice,
               previous_close := d.previousClose, day_high := d.dayHigh,
               day_low := d.dayLow, volume := d.volume, last_updated := now }]

/-- `getSimpleStockData`: cache check (5-minute window) first; on a miss the
endpoints are tried in priority order; on upstream success the quote is
written through unless the cache write fails (`cacheWriteOk = false`), a
failure that is caught and never reaches the caller; if every endpoint
fails the all-endpoints-failed error is raised.  Returns the outcome and
the resulting `quotes` table. -/
def getSimpleStockData (quotes : List QuoteRow)
    (responses : String → Option ChartMeta) (symbol : String)
    (useCache cacheWriteOk : Bool) (now : ℤ) :
    Except String StockData × List QuoteRow :=
  match (if useCache then getCachedQuote quotes symbol 5 now else none) with
  | some cached => (.ok (cachedToStockData cached), quotes)
  | none =>
    match fetchFromEndpoints responses (endpoints symbol) with
    | some meta =>
      let stockData := metaToStockData meta
      let quotes' :=
        if useCache && cacheWriteOk then cacheQuote quotes symbol stockData now
        else quotes
      (.ok stockData, quotes')
    | none => (.error ("All endpoints failed for " ++ symbol), quotes)

/-- A `historical_data` row; `(symbol, date, period, interval_type)` carries
a unique index, and prices may be NULL. -/
structure HistoricalRow where
  symbol : String
  date : String
  period : String
  interval_type : String
  open_price : Option ℚ
  high_price : Option ℚ
  low_price : Option ℚ
  close_price : Option ℚ
  volume : Option ℤ
  timestamp : ℤ
  created_at : ℤ
deriving Repr, DecidableEq

/-- The unique key of a `historical_data` row. -/
def histKey (r : HistoricalRow) : String × String × String × String :=
  (r.symbol, r.date, r.period, r.interval_type)

/-- `INSERT OR REPLACE` against the unique index: any row with the same key
is replaced by the new row. -/
def upsertHistoricalRow (store : List HistoricalRow) (r : HistoricalRow) :
    List HistoricalRow :=
  store.filter (fun x => !(decide (histKey x = histKey r))) ++ [r]

/-- One element of the `historicalData` array `getHistoricalData` builds
from the upstream payload before caching it.  The source derives `date` and
the stored millisecond timestamp from the bar's unix timestamp through the
Date library; the model carries both directly. -/
structure DataPoint where
  date : String
  open_price : Option ℚ
  high_price : Option ℚ
  low_price : Option ℚ
  close_price : Option ℚ
  volume : Option ℤ
  tsMillis : ℤ
deriving Repr, DecidableEq

/-- The `historical_data` row a data point is stored as. -/
def toHistoricalRow (symbol period interval : String) (now : ℤ)
    (p : DataPoint) : HistoricalRow :=
  { symbol := symbol, date := p.date, period := period,
    interval_type := interval, open_price := p.open_price,
    high_price := p.high_price, low_price := p.low_price,
    close_price := p.close_price, volume := p.volume,
    timestamp := p.tsMillis, created_at := now }

/-- `StockDatabase.cacheHistoricalData`: each data point is upserted by its
unique key, in order. -/
def cacheHistoricalData (store : List HistoricalRow)
    (symbol period interval : String) (historicalData : List DataPoint)
    (now : ℤ) : List HistoricalRow :=
  historicalData.foldl
    (fun st p => upsertHistoricalRow st (toHistoricalRow symbol period interval now p)) store

/-- `StockDatabase.getCachedHistoricalData`: the rows for the symbol and
period whose `created_at` is strictly newer than `now` minus `maxAgeHours`
hours (the date ordering of the query is irrelevant to the claims). -/
def getCachedHistoricalData (bars : List HistoricalRow)
    (symbol period : String) (maxAgeHours now : ℤ) : List HistoricalRow :=
  bars.filter (fun r =>
    r.symbol == symbol && r.period == period &&
      decide (now - maxAgeHours * 3600 < r.created_at))

/-- A `cache_metadata` row (`cache_key` is the primary key). -/
structure CacheMetadataRow where
  cache_key : String
  symbol : String
  data_type : String
  period : String
  expires_at : ℤ
  hit_count : ℤ
deriving Repr, DecidableEq

/-- `StockDatabase.updateCacheMetadata`: upsert by `cache_key`, bumping
`hit_count` and setting `expires_at` to `now` plus the TTL. -/
def updateCacheMetadata (meta : List CacheMetadataRow)
    (symbol dataType period : String) (ttlSeconds now : ℤ) :
    List CacheMetadataRow :=
  let cacheKey := symbol ++ "_" ++ dataType ++ "_" ++ period
  let oldHit := ((meta.find? (fun r => r.cache_key == cacheKey)).map
    (fun r => r.hit_count)).getD 0
  meta.filter (fun r => !(r.cache_key == cacheKey)) ++
    [{ cache_key := cacheKey, symbol := symbol, data_type := dataType,
       period := period, expires_at := now + ttlSeconds,
       hit_count := oldHit + 1 }]

/-- The parallel arrays of a parseable upstream historical payload
(`chart.result[0]`); `timestamps = none` models a payload without a
`timestamp` field. -/
structure HistoricalApiResult where
  timestamps : Option (List ℤ)
  open_prices : List (Option ℚ)
  high_prices : List (Option ℚ)
  low_prices : List (Option ℚ)
  close_prices : List (Option ℚ)
  volumes : List (Option ℤ)
deriving Repr, DecidableEq

/-- What `getHistoricalData` hands back: a payload tagged with whether it
came from the cache. -/
structure HistoricalFetchResult where
  result : HistoricalApiResult
  cached : Bool
deriving Repr, DecidableEq

/-- The payload rebuilt from cached rows on a historical cache hit. -/
def cachedHistoricalResult (rows : List HistoricalRow) : HistoricalApiResult :=
  { timestamps := some (rows.map (fun r => r.timestamp / 1000)),
    open_prices := rows.map (fun r => r.open_price),
    high_prices := rows.map (fun r => r.high_price),
    low_prices := rows.map (fun r => r.low_price),
    close_prices := rows.map (fun r => r.close_price),
    volumes := rows.map (fun r => r.volume) }

/-- The zip of the payload's parallel arrays into data points (the
`timestamps.map` of the source, with out-of-range indices read as null). -/
def buildDataPoints (dateOf : ℤ → String) (ts : List ℤ)
    (res : HistoricalApiResult) : List DataPoint :=
  (List.range ts.length).map (fun i =>
    { date := dateOf (ts.getD i 0),
      open_price := res.open_prices.getD i none,
      high_price := res.high_prices.getD i none,
      low_price := res.low_prices.getD i none,
      close_price := res.close_prices.getD i none,
      volume := res.volumes.getD i none,
      tsMillis := ts.getD i 0 * 1000 })

/-- The historical side of the stock cache database. -/
structure HistCache where
  bars : List HistoricalRow
  metadata : List CacheMetadataRow
deriving Repr, DecidableEq

/-- `getHistoricalData`: cache check (1-hour window) first; on a miss the
primary endpoint is fetched (`primary = none` models it throwing) and its
payload — when it has timestamps and the cache write does not itself fail —
is written through to `historical_data` and `cache_metadata`; if the
primary throws, the secondary endpoint is tried and its payload is returned
tagged fresh without any cache write; if both throw, the failure error is
raised.  `dateOf` is the Date-library rendering of a unix timestamp as a
date string.  Returns the outcome and the resulting cache state. -/
def getHistoricalData (cache : HistCache) (dateOf : ℤ → String)
    (symbol period interval : String) (useCache : Bool)
    (primary fallback : Option HistoricalApiResult) (cacheWriteOk : Bool)
    (now : ℤ) : Except String HistoricalFetchResult × HistCache :=
  let cachedRows :=
    if useCache then getCachedHistoricalData cache.bars symbol period 1 now
    else []
  if !cachedRows.isEmpty then
    (.ok { result := cachedHistoricalResult cachedRows, cached := true }, cache)
  else
    match primary with
    | some data =>
      let cache' :=
        match data.timestamps with
        | some ts =>
          if useCache && cacheWriteOk then
            { bars := cacheHistoricalData cache.bars symbol period interval
                (buildDataPoints dateOf ts data) now,
              metadata := updateCacheMetadata cache.metadata symbol
                ("historical") period 3600 now }
          else cache
        | none => cache
      (.ok { result := data, cached := false }, cache')
    | none =>
      match fallback with
      | some d2 => (.ok { result := d2, cached := false }, cache)
      | none =>
        (.error ("Failed to fetch historical data for " ++ symbol), cache)

/-- One search result item (local rows, cached rows and mapped online rows
are all reduced to the symbol/name pair the claims need). -/
structure SearchItem where
  symbol : String
  name : String
deriving Repr, DecidableEq

/-- A non-expired `search_cache` entry for the query, as
`getCachedSearchResults` returns it. -/
structure CachedSearch where
  results : List SearchItem
  count : ℕ
  source : String
deriving Repr, DecidableEq

/-- The record `searchStocks` returns. -/
structure SearchResponse where
  query : String
  resultsCount : ℕ
  source : String
  results : List SearchItem
deriving Repr, DecidableEq

/-- `searchStocks`: local index first; when it is empty, a non-expired
cached search entry wins; when there is none and `online` is set, the
online results are used (tagged Online when non-empty); otherwise the empty
local result set is returned as a successful response. -/
def searchStocks (localResults : List SearchItem)
    (cachedSearch : Option CachedSearch) (onlineResults : List SearchItem)
    (query : String) (limit : ℕ) (online : Bool) : SearchResponse :=
  if localResults.isEmpty then
    match cachedSearch with
    | some c =>
      { query := query, resultsCount := c.count,
        source := "Cached " ++ c.source, results := c.results.take limit }
    | none =>
      if online then
        { query := query, resultsCount := onlineResults.length,
          source := if onlineResults.isEmpty then "Database" else "Online",
          results := onlineResults }
      else
        { query := query, resultsCount := 0, source := "Database", results := [] }
  else
    { query := query, resultsCount := localResults.length,
      source := "Database", results := localResults }

/-- A quote payload used by the concrete witnesses. -/
def demoMeta : ChartMeta :=
  { symbol := "TCS.NS", regularMarketPrice := 3500, previousClose := 3450,
    regularMarketDayHigh := 3550, regularMarketDayLow := 3400,
    regularMarketVolume := 1000, currency := "INR", exchangeName := "NSI" }

/-- A `quotes` table holding one TCS row fetched at time 0, used by the
concrete freshness counterexample. -/
def demoQuotes : List QuoteRow :=
  [{ symbol := "TCS", current_price := 3500, previous_close := 3450,
     day_high := 3550, day_low := 3400, volume := 1000, last_updated := 0 }]

/-- A concrete environment answering only on the secondary endpoint. -/
def demoResponses : String → Option ChartMeta :=
  fun url => if url == secondaryEndpoint ("TCS") then some demoMeta else none

/-- A concrete parseable historical payload. -/
def demoHistPayload : HistoricalApiResult :=
  { timestamps := some [0], open_prices := [some 1], high_prices := [some 2],
    low_prices := [some 1], close_prices := [some 2], volumes := [some 10] }

/-- First write of the duplicate-key pair used by the upsert witness. -/
def demoPoint1 : DataPoint :=
  { date := "2024-01-01", open_price := some 1, high_price := some 2,
    low_price := some 1, close_price := some 2, volume := some 10,
    tsMillis := 0 }

/-- Second write of the duplicate-key pair used by the upsert witness. -/
def demoPoint2 : DataPoint :=
  { date := "2024-01-01", open_price := some 3, high_price := some 4,
    low_price := some 3, close_price := some 4, volume := some 20,
    tsMillis := 0 }

/-- C1: the specification's sell scenario — selling 4 TCS shares at 3600
from a 10-share, 35000-invested holding must leave qty 6 and invested
21000 and credit the wallet 14400 (65000 to 79400).  The wired-in
`sellStock` performs the SELL insert and the proportional holding update
but contains no STOCK_SALE balance adjustment: the balance stays 65000 and
no WalletTransaction is written, refuting the credit part of the claim. -/
theorem sellStock_never_credits_wallet :
    (sellStock scenarioSellStart ("TCS") 4 3600).2 = none ∧
    (sellStock scenarioSellStart ("TCS") 4 3600).1.holdings =
      [{ symbol := "TCS", company_name := "TCS", quantity := 6,
         average_price := 3500, invested_amount := 21000 }] ∧
    (sellStock scenarioSellStart ("TCS") 4 3600).1.stock_transactions =
      [{ symbol := "TCS", company_name := "TCS", transaction_type := "SELL",
         quantity := 4, price := 3600, total_amount := 14400 }] ∧
    (sellStock scenarioSellStart ("TCS") 4 3600).1.wallet.balance = 65000 ∧
    (sellStock scenarioSellStart ("TCS") 4 3600).1.wallet_transactions = [] ∧
    ¬ (sellStock scenarioSellStart ("TCS") 4 3600).1.wallet.balance = 79400 := by
  norm_num [sellStock, scenarioSellStart, runTransaction, applyOps, List.find?]

/-- C2: a buy whose balance debit would succeed but whose stock-transaction
insert or holding upsert fails inside the transaction is rolled back
whole: the ledger afterwards equals the pre-operation ledger (balance
included) and the caller receives the transaction failure. -/
theorem buyStock_all_or_nothing (s : LedgerState) (symbol companyName : String)
    (quantity price : ℚ) (stockTxFails holdingFails : Bool)
    (hdebit : ¬ s.wallet.balance < quantity * price)
    (hfail : stockTxFails = true ∨ holdingFails = true) :
    buyStock s symbol companyName quantity price stockTxFails holdingFails =
      (s, some ("Transaction failed")) := by
  rcases hfail with h | h <;> subst h
  · simp [buyStock, runTransaction, applyOps, hdebit]
  · cases hst : stockTxFails <;>
      cases hfind : s.holdings.find? (fun h => h.symbol == symbol) <;>
        simp [buyStock, runTransaction, applyOps, hdebit, hfind, hst]

/-- Witness for the buy atomicity theorem: a concrete failed purchase
leaves the concrete ledger untouched. -/
theorem buyStock_all_or_nothing_witness :
    buyStock (demoLedger 100000) ("TCS") ("TCS") 10 3500 false true =
      (demoLedger 100000, some ("Transaction failed")) :=
  buyStock_all_or_nothing (demoLedger 100000) ("TCS") ("TCS") 10 3500 false true
    (by norm_num [demoLedger]) (Or.inr rfl)

/-- A WITHDRAWAL or STOCK_PURCHASE larger than the balance is rejected with
the insufficient-balance error and leaves the ledger untouched. -/
theorem updateWalletBalance_reject (s : LedgerState) (amount : ℚ) (t d : String)
    (ht : t = "WITHDRAWAL" ∨ t = "STOCK_PURCHASE")
    (hlt : s.wallet.balance < amount) :
    updateWalletBalance s amount t d = (s, .error ("Insufficient balance")) := by
  rcases ht with h | h <;> subst h <;>
    simp [updateWalletBalance, sub_neg.mpr hlt]

/-- A DEPOSIT or STOCK_SALE credits the amount and appends exactly one
wallet transaction recording the resulting balance. -/
theorem updateWalletBalance_add (s : LedgerState) (amount : ℚ) (t d : String)
    (ht : t = "DEPOSIT" ∨ t = "STOCK_SALE") :
    updateWalletBalance s amount t d =
      ({ s with
          wallet := { s.wallet with balance := s.wallet.balance + amount },
          wallet_transactions := s.wallet_transactions ++
            [{ transaction_type := t, amount := amount,
               balance_after := s.wallet.balance + amount, description := d }] },
        .ok (s.wallet.balance + amount)) := by
  rcases ht with h | h <;> subst h <;> simp [updateWalletBalance]

/-- A WITHDRAWAL or STOCK_PURCHASE covered by the balance debits the amount
and appends exactly one wallet transaction recording the resulting
balance. -/
theorem updateWalletBalance_sub (s : LedgerState) (amount : ℚ) (t d : String)
    (ht : t = "WITHDRAWAL" ∨ t = "STOCK_PURCHASE")
    (hle : amount ≤ s.wallet.balance) :
    updateWalletBalance s amount t d =
      ({ s with
          wallet := { s.wallet with balance := s.wallet.balance - amount },
          wallet_transactions := s.wallet_transactions ++
            [{ transaction_type := t, amount := amount,
               balance_after := s.wallet.balance - amount, description := d }] },
        .ok (s.wallet.balance - amount)) := by
  have hnn : ¬ s.wallet.balance - amount < 0 := by simp [sub_neg]; linarith
  rcases ht with h | h <;> subst h <;> simp [updateWalletBalance, hnn]

/-- A transaction type outside the four kinds is rejected unchanged. -/
theorem updateWalletBalance_invalid (s : LedgerState) (amount : ℚ) (t d : String)
    (h1 : t ≠ "DEPOSIT") (h2 : t ≠ "STOCK_SALE") (h3 : t ≠ "WITHDRAWAL")
    (h4 : t ≠ "STOCK_PURCHASE") :
    updateWalletBalance s amount t d = (s, .error ("Invalid transaction type")) := by
  simp [updateWalletBalance, h1, h2, h3, h4]

/-- One balance adjustment keeps a non-negative balance non-negative. -/
theorem applyAdjustment_balance_nonneg (s : LedgerState) (a : BalanceAdjustment)
    (hs : 0 ≤ s.wallet.balance) (ha : 0 ≤ a.amount) :
    0 ≤ (applyAdjustment s a).wallet.balance := by
  by_cases hadd : a.transactionType = "DEPOSIT" ∨ a.transactionType = "STOCK_SALE"
  · rw [applyAdjustment, updateWalletBalance_add _ _ _ _ hadd]
    simpa using by linarith
  · by_cases hsub : a.transactionType = "WITHDRAWAL" ∨ a.transactionType = "STOCK_PURCHASE"
    · by_cases hover : s.wallet.balance < a.amount
      · rw [applyAdjustment, updateWalletBalance_reject _ _ _ _ hsub hover]
        simpa using hs
      · rw [applyAdjustment, updateWalletBalance_sub _ _ _ _ hsub (le_of_not_lt hover)]
        simpa using by linarith [le_of_not_lt hover]
    · push_neg at hadd hsub
      rw [applyAdjustment, updateWalletBalance_invalid _ _ _ _ hadd.1 hadd.2 hsub.1 hsub.2]
      simpa using hs

/-- Any sequence of non-negative balance adjustments keeps the balance
non-negative. -/
theorem foldl_adjustments_nonneg (l : List BalanceAdjustment) (s : LedgerState)
    (hs : 0 ≤ s.wallet.balance) (hl : ∀ a ∈ l, 0 ≤ a.amount) :
    0 ≤ (l.foldl applyAdjustment s).wallet.balance := by
  induction l generalizing s with
  | nil => simpa using hs
  | cons a rest ih =>
    simp only [List.foldl_cons]
    exact ih _ (applyAdjustment_balance_nonneg s a hs (hl a (by simp)))
      (fun b hb => hl b (by simp [hb]))

/-- C3: an overdrawing WITHDRAWAL or STOCK_PURCHASE fails with the
insufficient-balance error and changes nothing; a successful DEPOSIT or
STOCK_SALE adds the amount and a covered WITHDRAWAL or STOCK_PURCHASE
subtracts it, each appending exactly one wallet transaction recording the
resulting balance; and across every sequence of non-negative adjustments
the balance never becomes negative. -/
theorem wallet_adjustments_safe :
    (∀ (s : LedgerState) (amount : ℚ) (t d : String),
        (t = "WITHDRAWAL" ∨ t = "STOCK_PURCHASE") → s.wallet.balance < amount →
          updateWalletBalance s amount t d = (s, .error ("Insufficient balance"))) ∧
    (∀ (s : LedgerState) (amount : ℚ) (t d : String),
        (t = "DEPOSIT" ∨ t = "STOCK_SALE") →
          updateWalletBalance s amount t d =
            ({ s with
                wallet := { s.wallet with balance := s.wallet.balance + amount },
                wallet_transactions := s.wallet_transactions ++
                  [{ transaction_type := t, amount := amount,
                     balance_after := s.wallet.balance + amount, description := d }] },
              .ok (s.wallet.balance + amount))) ∧
    (∀ (s : LedgerState) (amount : ℚ) (t d : String),
        (t = "WITHDRAWAL" ∨ t = "STOCK_PURCHASE") → amount ≤ s.wallet.balance →
          updateWalletBalance s amount t d =
            ({ s with
                wallet := { s.wallet with balance := s.wallet.balance - amount },
                wallet_transactions := s.wallet_transactions ++
                  [{ transaction_type := t, amount := amount,
                     balance_after := s.wallet.balance - amount, description := d }] },
              .ok (s.wallet.balance - amount))) ∧
    (∀ (s : LedgerState) (l : List BalanceAdjustment), 0 ≤ s.wallet.balance →
        (∀ a ∈ l, 0 ≤ a.amount) → 0 ≤ (l.foldl applyAdjustment s).wallet.balance) :=
  ⟨updateWalletBalance_reject, updateWalletBalance_add, updateWalletBalance_sub,
    fun s l hs hl => foldl_adjustments_nonneg l s hs hl⟩

/-- Witness for the wallet adjustment theorem: a concrete overdraft is
rejected unchanged and a concrete deposit-withdraw sequence keeps the
balance non-negative. -/
theorem wallet_adjustments_safe_witness :
    updateWalletBalance (demoLedger 100) 200 ("WITHDRAWAL") ("w") =
      (demoLedger 100, .error ("Insufficient balance")) ∧
    0 ≤ (List.foldl applyAdjustment (demoLedger 0)
      [{ amount := 500, transactionType := "DEPOSIT", description := "d" },
       { amount := 200, transactionType := "WITHDRAWAL", description := "w" }]).wallet.balance := by
  constructor
  · exact wallet_adjustments_safe.1 (demoLedger 100) 200 _ _ (Or.inl rfl)
      (by norm_num [demoLedger])
  · refine wallet_adjustments_safe.2.2.2 (demoLedger 0) _ (by norm_num [demoLedger]) ?_
    intro a ha
    simp at ha
    rcases ha with h | h <;> subst h <;> norm_num

/-- C4: a buy covered by the balance debits quantity times price, records
one BUY stock transaction and one STOCK_PURCHASE wallet transaction whose
`balance_after` is the debited balance, and upserts the holding — created
with the traded quantity, price and cost when absent, otherwise summed
with volume-weighted average price. -/
theorem buyStock_debits_and_upserts (s : LedgerState) (symbol companyName : String)
    (quantity price : ℚ) (hbal : quantity * price ≤ s.wallet.balance) :
    (buyStock s symbol companyName quantity price false false).2 = none ∧
    (buyStock s symbol companyName quantity price false false).1.wallet.balance =
      s.wallet.balance - quantity * price ∧
    (buyStock s symbol companyName quantity price false false).1.stock_transactions =
      s.stock_transactions ++
        [{ symbol := symbol, company_name := companyName, transaction_type := "BUY",
           quantity := quantity, price := price, total_amount := quantity * price }] ∧
    (buyStock s symbol companyName quantity price false false).1.wallet_transactions =
      s.wallet_transactions ++
        [{ transaction_type := "STOCK_PURCHASE", amount := quantity * price,
           balance_after := s.wallet.balance - quantity * price,
           description := "Purchased " ++ toString quantity ++ " shares of " ++ symbol }] ∧
    (s.holdings.find? (fun h => h.symbol == symbol) = none →
      (buyStock s symbol companyName quantity price false false).1.holdings =
        s.holdings ++
          [{ symbol := symbol, company_name := companyName, quantity := quantity,
             average_price := price, invested_amount := quantity * price }]) ∧
    (∀ h0, s.holdings.find? (fun h => h.symbol == symbol) = some h0 →
      (buyStock s symbol companyName quantity price false false).1.holdings =
        s.holdings.map (fun h =>
          if h.symbol == symbol then
            { symbol := h.symbol, company_name := h.company_name,
              quantity := h0.quantity + quantity,
              average_price := (h0.invested_amount + quantity * price) /
                (h0.quantity + quantity),
              invested_amount := h0.invested_amount + quantity * price }
          else h)) := by
  have hnb : ¬ s.wallet.balance < quantity * price := not_lt.mpr hbal
  cases hfind : s.holdings.find? (fun h => h.symbol == symbol) with
  | none => simp [buyStock, runTransaction, applyOps, hnb, hfind]
  | some h0 => simp [buyStock, runTransaction, applyOps, hnb, hfind]

/-- Witness for the buy theorem: the specification's buy scenario — from
balance 100000, buying 10 TCS at 3500 succeeds and leaves balance 65000. -/
theorem buyStock_debits_and_upserts_witness :
    (10 * 3500 ≤ (demoLedger 100000).wallet.balance) ∧
    (buyStock (demoLedger 100000) ("TCS") ("TCS") 10 3500 false false).2 = none ∧
    (buyStock (demoLedger 100000) ("TCS") ("TCS") 10 3500 false false).1.wallet.balance =
      65000 := by
  have hb : (10 : ℚ) * 3500 ≤ (demoLedger 100000).wallet.balance := by
    norm_num [demoLedger]
  have h := buyStock_debits_and_upserts (demoLedger 100000) ("TCS") ("TCS") 10 3500 hb
  refine ⟨hb, h.1, ?_⟩
  rw [h.2.1]
  norm_num [demoLedger]

/-- C8 counterexample: after the scenario buy the stored wallet aggregate
`total_invested` is still 0 while the holdings sum to 35000, so the stored
aggregates do not equal the sums over the holdings. -/
theorem wallet_totals_stale_after_buy :
    (buyStock (demoLedger 100000) ("TCS") ("TCS") 10 3500 false false).2 = none ∧
    (buyStock (demoLedger 100000) ("TCS") ("TCS") 10 3500 false
        false).1.wallet.total_invested = 0 ∧
    ((buyStock (demoLedger 100000) ("TCS") ("TCS") 10 3500 false
        false).1.holdings.map (fun h => h.invested_amount)).sum = 35000 ∧
    ¬ (buyStock (demoLedger 100000) ("TCS") ("TCS") 10 3500 false
        false).1.wallet.total_invested =
      ((buyStock (demoLedger 100000) ("TCS") ("TCS") 10 3500 false
          false).1.holdings.map (fun h => h.invested_amount)).sum := by
  norm_num [buyStock, demoLedger, runTransaction, applyOps, List.find?]

/-- C8 (amended): neither a buy nor a sell touches the wallet aggregate
fields `total_invested`, `total_current_value` and `total_profit_loss` —
they are not recomputed from the holdings; only the balance changes. -/
theorem trade_ops_keep_wallet_totals (s : LedgerState) (symbol companyName : String)
    (quantity price : ℚ) (stockTxFails holdingFails : Bool) :
    ((buyStock s symbol companyName quantity price stockTxFails
        holdingFails).1.wallet.total_invested = s.wallet.total_invested ∧
     (buyStock s symbol companyName quantity price stockTxFails
        holdingFails).1.wallet.total_current_value = s.wallet.total_current_value ∧
     (buyStock s symbol companyName quantity price stockTxFails
        holdingFails).1.wallet.total_profit_loss = s.wallet.total_profit_loss) ∧
    ((sellStock s symbol quantity price).1.wallet.total_invested =
        s.wallet.total_invested ∧
     (sellStock s symbol quantity price).1.wallet.total_current_value =
        s.wallet.total_current_value ∧
     (sellStock s symbol quantity price).1.wallet.total_profit_loss =
        s.wallet.total_profit_loss) := by
  constructor
  · by_cases hbal : s.wallet.balance < quantity * price
    · simp [buyStock, hbal]
    · cases hfind : s.holdings.find? (fun h => h.symbol == symbol) <;>
        cases stockTxFails <;> cases holdingFails <;>
          simp [buyStock, runTransaction, applyOps, hbal, hfind]
  · cases hfind : s.holdings.find? (fun h => h.symbol == symbol) with
    | none => simp [sellStock, hfind]
    | some holding =>
      by_cases hq : holding.quantity < quantity
      · simp [sellStock, hfind, hq]
      · by_cases h0 : holding.quantity - quantity = 0 <;>
          simp [sellStock, runTransaction, applyOps, hfind, hq, h0]

/-- The max-by-`last_updated` selection yields a row exactly when there is
one to select. -/
theorem latestBy_isSome (l : List QuoteRow) : (latestBy l).isSome ↔ l ≠ [] := by
  induction l with
  | nil => simp [latestBy]
  | cons r rest ih =>
    simp only [latestBy]
    cases h : latestBy rest
    · simp
    · simp only [h]
      split <;> simp

/-- C6 counterexample: a quote fetched at time 0 read at time 300 with a
5-minute window has age 300 ≤ 300 seconds, yet the lookup reports absent —
the claimed hit at age equal to the window fails. -/
theorem cachedQuote_miss_at_window_boundary :
    ((300 : ℤ) - 0 ≤ 5 * 60) ∧ getCachedQuote demoQuotes ("TCS") 5 300 = none := by
  constructor
  · decide
  · rfl

/-- C6 (amended): the cached-quote lookup hits exactly when some row for
the symbol is strictly younger than the window — age strictly below
`maxAgeMinutes` minutes is a hit, age at or above it is a miss; the lookup
reads the store and never fetches. -/
theorem getCachedQuote_hit_iff (quotes : List QuoteRow) (symbol : String)
    (maxAgeMinutes now : ℤ) :
    (getCachedQuote quotes symbol maxAgeMinutes now).isSome ↔
      ∃ r ∈ quotes, r.symbol = symbol ∧
        now - r.last_updated < maxAgeMinutes * 60 := by
  rw [getCachedQuote, latestBy_isSome]
  constructor
  · intro hne
    obtain ⟨r, hrmem⟩ := List.exists_mem_of_ne_nil _ hne
    obtain ⟨hrl, hrp⟩ := List.mem_filter.mp hrmem
    simp only [Bool.and_eq_true, beq_iff_eq, decide_eq_true_eq] at hrp
    exact ⟨r, hrl, hrp.1, by omega⟩
  · rintro ⟨r, hrl, h1, h2⟩
    refine List.ne_nil_of_mem (List.mem_filter.mpr ⟨hrl, ?_⟩)
    simp only [Bool.and_eq_true, beq_iff_eq, decide_eq_true_eq]
    exact ⟨h1, by omega⟩

/-- Upserting a row leaves exactly that row under its unique key, whatever
the store held before. -/
theorem filter_upsert_self (store : List HistoricalRow) (r : HistoricalRow) :
    (upsertHistoricalRow store r).filter
      (fun x => decide (histKey x = histKey r)) = [r] := by
  unfold upsertHistoricalRow
  rw [List.filter_append]
  have h1 : (store.filter (fun x => !(decide (histKey x = histKey r)))).filter
      (fun x => decide (histKey x = histKey r)) = [] := by
    rw [List.filter_filter]
    simp
  rw [h1]
  simp

/-- C5: caching two bars that carry the same unique key (same symbol, date,
period, interval) leaves exactly one stored row under that key, and it is
the second write. -/
theorem cacheHistoricalData_second_write_wins (store : List HistoricalRow)
    (symbol period interval : String) (p1 p2 : DataPoint) (now : ℤ)
    (hkey : p1.date = p2.date) :
    (cacheHistoricalData store symbol period interval [p1, p2] now).filter
        (fun x => decide (histKey x =
          histKey (toHistoricalRow symbol period interval now p2)))
      = [toHistoricalRow symbol period interval now p2] := by
  simp only [cacheHistoricalData, List.foldl_cons, List.foldl_nil]
  exact filter_upsert_self _ _

/-- Witness for the historical upsert theorem at a concrete duplicate-key
pair of bars. -/
theorem cacheHistoricalData_second_write_wins_witness :
    (cacheHistoricalData [] ("TCS") ("1d") ("1m") [demoPoint1, demoPoint2] 0).filter
        (fun x => decide (histKey x =
          histKey (toHistoricalRow ("TCS") ("1d") ("1m") 0 demoPoint2)))
      = [toHistoricalRow ("TCS") ("1d") ("1m") 0 demoPoint2] :=
  cacheHistoricalData_second_write_wins [] ("TCS") ("1d") ("1m")
    demoPoint1 demoPoint2 0 rfl

/-- C7: on a quote-cache miss the endpoints are tried in the fixed order
primary query1 host, secondary query2 host, HTML quote page; the first
parseable payload alone determines the result whatever the later endpoints
would answer, the result does not depend on whether the cache write-back
succeeds, and when every endpoint fails the all-endpoints-failed error for
the symbol is raised. -/
theorem getSimpleStockData_priority (quotes : List QuoteRow)
    (responses : String → Option ChartMeta) (symbol : String) (now : ℤ)
    (hmiss : getCachedQuote quotes symbol 5 now = none) :
    (∀ m, responses (primaryEndpoint symbol) = some m → ∀ cacheWriteOk,
        (getSimpleStockData quotes responses symbol true cacheWriteOk now).1 =
          .ok (metaToStockData m)) ∧
    (∀ m, responses (primaryEndpoint symbol) = none →
        responses (secondaryEndpoint symbol) = some m → ∀ cacheWriteOk,
        (getSimpleStockData quotes responses symbol true cacheWriteOk now).1 =
          .ok (metaToStockData m)) ∧
    (∀ m, responses (primaryEndpoint symbol) = none →
        responses (secondaryEndpoint symbol) = none →
        responses (quotePageEndpoint symbol) = some m → ∀ cacheWriteOk,
        (getSimpleStockData quotes responses symbol true cacheWriteOk now).1 =
          .ok (metaToStockData m)) ∧
    (responses (primaryEndpoint symbol) = none →
        responses (secondaryEndpoint symbol) = none →
        responses (quotePageEndpoint symbol) = none → ∀ cacheWriteOk,
        (getSimpleStockData quotes responses symbol true cacheWriteOk now).1 =
          .error ("All endpoints failed for " ++ symbol)) := by
  refine ⟨?_, ?_, ?_, ?_⟩
  · intro m h1 cw
    simp [getSimpleStockData, fetchFromEndpoints, endpoints, hmiss, h1]
  · intro m h1 h2 cw
    simp [getSimpleStockData, fetchFromEndpoints, endpoints, hmiss, h1, h2]
  · intro m h1 h2 h3 cw
    simp [getSimpleStockData, fetchFromEndpoints, endpoints, hmiss, h1, h2, h3]
  · intro h1 h2 h3 cw
    simp [getSimpleStockData, fetchFromEndpoints, endpoints, hmiss, h1, h2, h3]

/-- Witness for the endpoint-priority theorem: with the primary endpoint
failing and the secondary answering, the secondary payload is returned
even with a failing cache write. -/
theorem getSimpleStockData_priority_witness :
    (getSimpleStockData [] demoResponses ("TCS") true false 0).1 =
      .ok (metaToStockData demoMeta) := by
  have h := getSimpleStockData_priority [] demoResponses ("TCS") 0 (by rfl)
  exact h.2.1 demoMeta (by rfl) (by rfl) false

/-- C9: a search with online search disabled, an empty local match set and
no cached entry returns a successful response with zero results, not an
error. -/
theorem searchStocks_offline_empty (query : String) (limit : ℕ)
    (onlineResults : List SearchItem) :
    searchStocks [] none onlineResults query limit false =
      { query := query, resultsCount := 0, source := "Database",
        results := [] } := by
  simp [searchStocks]

/-- C10: when the cache misses, the primary historical endpoint throws and
the secondary succeeds, the secondary payload is returned tagged fresh and
the historical cache — bars and metadata alike — is left exactly as it
was. -/
theorem getHistoricalData_fallback_frame (cache : HistCache) (dateOf : ℤ → String)
    (symbol period interval : String) (fallbackData : HistoricalApiResult)
    (cacheWriteOk : Bool) (now : ℤ)
    (hmiss : getCachedHistoricalData cache.bars symbol period 1 now = []) :
    getHistoricalData cache dateOf symbol period interval true none
        (some fallbackData) cacheWriteOk now =
      (.ok { result := fallbackData, cached := false }, cache) := by
  simp [getHistoricalData, hmiss]

/-- Witness for the fallback frame theorem on a concrete empty cache. -/
theorem getHistoricalData_fallback_frame_witness :
    getHistoricalData ⟨[], []⟩ (fun _ => "1970-01-01") ("TCS") ("1d") ("1m")
        true none (some demoHistPayload) true 0 =
      (.ok { result := demoHistPayload, cached := false }, ⟨[], []⟩) :=
  getHistoricalData_fallback_frame ⟨[], []⟩ (fun _ => "1970-01-01") ("TCS")
    ("1d") ("1m") demoHistPayload true 0 rfl

end StockApi
